import Mathlib

/-!
Shallow embedding of the confetti particle animation engine from
`src/scripts/confetti.js`, together with theorems settling the frozen
claims about its specification.

Modelling conventions:
* JavaScript numbers are modelled as real numbers (`ℝ`).
* `Math.random()` draws are passed in explicitly as parameters in `[0, 1)`.
* The module-level mutable variables (`canvas`, `ctx`, `particles`,
  `animationId`, `isAnimating`, the mutable `CONFIG` object, and the pending
  auto-stop timers) are gathered into an explicit `EngineState` record, and
  every exported function becomes a state transformer.
* `requestAnimationFrame` handles are modelled as successive positive
  naturals (browsers return nonzero handles, so JS truthiness of the stored
  handle coincides with `Option.isSome`).
-/

namespace Confetti

/-- A numeric range as used by `CONFIG.initialVelocityRange` and
`CONFIG.angleRange` in the source. -/
structure Range where
  min : ℝ
  max : ℝ

/-- The shape of the mutable `CONFIG` object of `confetti.js`. -/
structure Config where
  particleCount : ℕ
  duration : ℝ
  colors : List String
  shapes : List String
  gravity : ℝ
  windResistance : ℝ
  initialVelocityRange : Range
  angleRange : Range

/-- The default `CONFIG` literal of `confetti.js` (lines 8-17). -/
noncomputable def CONFIG : Config where
  particleCount := 150
  duration := 4000
  colors := ["#d4a574", "#e8d4b8", "#1e3a5f", "#4caf50", "#2196f3"]
  shapes := ["circle", "square"]
  gravity := 0.5
  windResistance := 0.98
  initialVelocityRange := ⟨-15, -5⟩
  angleRange := ⟨-(Real.pi / 4), -(Real.pi * 3 / 4)⟩

/-- One confetti particle: the instance fields of class `Particle`. -/
structure Particle where
  x : ℝ
  y : ℝ
  size : ℝ
  color : String
  shape : String
  vx : ℝ
  vy : ℝ
  rotation : ℝ
  rotationSpeed : ℝ
  opacity : ℝ
  life : ℝ

/-- The seven `Math.random()` draws consumed by the `Particle` constructor,
in source order. -/
structure Rand where
  rSize : ℝ
  rColor : ℝ
  rShape : ℝ
  rAngle : ℝ
  rVel : ℝ
  rRot : ℝ
  rRotSpeed : ℝ

/-- The launch angle sampled by the `Particle` constructor (line 37):
`angle = r * (angleRange.max - angleRange.min) + angleRange.min`. -/
def sampleAngle (cfg : Config) (r : ℝ) : ℝ :=
  r * (cfg.angleRange.max - cfg.angleRange.min) + cfg.angleRange.min

/-- The launch speed sampled by the `Particle` constructor (line 38):
`velocity = r * (velRange.max - velRange.min) + velRange.min`. -/
def sampleVelocity (cfg : Config) (r : ℝ) : ℝ :=
  r * (cfg.initialVelocityRange.max - cfg.initialVelocityRange.min) +
    cfg.initialVelocityRange.min

/-- The `Particle` constructor (lines 29-49), with the seven random draws
passed explicitly. -/
noncomputable def mkParticle (cfg : Config) (x y : ℝ) (ρ : Rand) : Particle :=
  let angle := sampleAngle cfg ρ.rAngle
  let velocity := sampleVelocity cfg ρ.rVel
  { x := x
    y := y
    size := ρ.rSize * 8 + 4
    color := cfg.colors.getD (Int.floor (ρ.rColor * cfg.colors.length)).toNat ""
    shape := cfg.shapes.getD (Int.floor (ρ.rShape * cfg.shapes.length)).toNat ""
    vx := Real.cos angle * velocity
    vy := Real.sin angle * velocity
    rotation := ρ.rRot * Real.pi * 2
    rotationSpeed := (ρ.rRotSpeed - 0.5) * 0.2
    opacity := 1
    life := 1 }

/-- `Particle.update` (lines 54-72), transcribed statement by statement:
gravity, then wind resistance on both axes, then position integration,
then rotation, then life decay and the opacity clamp. -/
def Particle.update (cfg : Config) (p : Particle) : Particle :=
  let p1 := { p with vy := p.vy + cfg.gravity }
  let p2 := { p1 with vx := p1.vx * cfg.windResistance,
                      vy := p1.vy * cfg.windResistance }
  let p3 := { p2 with x := p2.x + p2.vx, y := p2.y + p2.vy }
  let p4 := { p3 with rotation := p3.rotation + p3.rotationSpeed }
  let p5 := { p4 with life := p4.life - 0.01 }
  { p5 with opacity := max 0 p5.life }

/-- `Particle.isAlive` (lines 100-102): `life > 0 && y < canvas.height + 50`,
with the surface height passed explicitly. -/
def Particle.isAlive (h : ℝ) (p : Particle) : Prop :=
  p.life > 0 ∧ p.y < h + 50

noncomputable instance (h : ℝ) (p : Particle) : Decidable (p.isAlive h) := by
  unfold Particle.isAlive; infer_instance

/-- Boolean form of `Particle.isAlive`, as used by the frame loop's filter. -/
noncomputable def Particle.aliveB (h : ℝ) (p : Particle) : Bool :=
  decide (p.isAlive h)

theorem aliveB_eq_true_iff (h : ℝ) (p : Particle) :
    p.aliveB h = true ↔ p.isAlive h := by
  simp [Particle.aliveB]

/-- The drawing surface: the `confetti-canvas` element's dimensions. -/
structure Canvas where
  width : ℝ
  height : ℝ

/-- The module-level mutable state of `confetti.js` (line 19 plus the mutable
`CONFIG` object and the pending auto-stop timers scheduled by
`triggerConfetti`). `nextFrameId` generates fresh nonzero
`requestAnimationFrame` handles; `timers` records the absolute fire times of
scheduled auto-stop callbacks. -/
structure EngineState where
  canvas : Option Canvas
  hasCtx : Bool
  particles : List Particle
  animationId : Option ℕ
  nextFrameId : ℕ
  isAnimating : Bool
  config : Config
  timers : List ℝ

/-- `initConfetti` (lines 108-125): looks up the canvas element (passed here
as `found`); on failure it warns and returns with `canvas` now null; on
success it acquires a context, clears the particle list, clears the animating
flag and sizes the canvas to the viewport `vw × vh` (via `resizeCanvas`). -/
def initConfetti (found : Option Canvas) (vw vh : ℝ) (s : EngineState) :
    EngineState :=
  match found with
  | none => { s with canvas := none }
  | some _ =>
      { s with canvas := some ⟨vw, vh⟩, hasCtx := true,
               particles := [], isAnimating := false }

/-- `createParticles` (lines 143-147): push `count` particles spawned at
`(x, y)`, the i-th built from the random draws `ρ i`. -/
noncomputable def createParticles (cfg : Config) (x y : ℝ) (count : ℕ)
    (ρ : ℕ → Rand) (ps : List Particle) : List Particle :=
  ps ++ (List.range count).map fun i => mkParticle cfg x y (ρ i)

/-- One invocation of `animate` (lines 152-176): guard on a live context and
canvas, then update every particle, keep (and draw) exactly the survivors of
`isAlive`, then either request the next frame or drop the animating flag.
Returns the new state together with the list of particles drawn this frame. -/
noncomputable def animateStep (s : EngineState) : EngineState × List Particle :=
  match s.canvas, s.hasCtx with
  | some cv, true =>
      let survivors :=
        (s.particles.map (Particle.update s.config)).filter
          (Particle.aliveB cv.height)
      if survivors.length > 0 then
        ({ s with particles := survivors,
                  animationId := some (s.nextFrameId + 1),
                  nextFrameId := s.nextFrameId + 1 }, survivors)
      else
        ({ s with particles := survivors, isAnimating := false }, survivors)
  | _, _ => (s, [])

/-- `stopConfetti` (lines 221-234): cancel a pending frame request if the
stored handle is truthy, then unconditionally empty the particle list and
clear the animating flag (the canvas clear is a pure draw effect). -/
def stopConfetti (s : EngineState) : EngineState :=
  let s1 := if s.animationId.isSome then { s with animationId := none } else s
  { s1 with particles := [], isAnimating := false }

/-- The `options` argument of `triggerConfetti`: each field either absent or
a number. -/
structure TriggerOptions where
  x : Option ℝ := none
  y : Option ℝ := none
  count : Option ℕ := none

/-- JavaScript `v || d` for an optional numeric option: the default is taken
when the option is absent or equal to `0` (a falsy number). -/
noncomputable def jsOrR (v : Option ℝ) (d : ℝ) : ℝ :=
  match v with
  | none => d
  | some t => if t = 0 then d else t

/-- JavaScript `v || d` for the optional particle count. -/
def jsOrN (v : Option ℕ) (d : ℕ) : ℕ :=
  match v with
  | none => d
  | some t => if t = 0 then d else t

/-- `triggerConfetti` (lines 185-216): no-op unless initialized; no-op when
the host reports a reduced-motion preference (`reduced`, read fresh at this
call); otherwise resolve the spawn point and count through `||`, append the
new particles, start the frame loop when idle (running `animate` once
synchronously), and schedule an auto-stop `config.duration` after `now`. -/
noncomputable def triggerConfetti (reduced : Bool) (opts : TriggerOptions)
    (now : ℝ) (ρ : ℕ → Rand) (s : EngineState) : EngineState :=
  match s.canvas, s.hasCtx with
  | some cv, true =>
      if reduced then s
      else
        let x := jsOrR opts.x (cv.width / 2)
        let y := jsOrR opts.y 40
        let count := jsOrN opts.count s.config.particleCount
        let newParticles := createParticles s.config x y count ρ s.particles
        let s1 := { s with particles := newParticles }
        let s2 := if s1.isAnimating then s1
                  else (animateStep { s1 with isAnimating := true }).1
        { s2 with timers := s2.timers ++ [now + s2.config.duration] }
  | _, _ => s

/-- The body of the `setTimeout` callback scheduled by `triggerConfetti`
(lines 211-215): a full stop if and only if still animating when it fires. -/
def fireAutoStop (s : EngineState) : EngineState :=
  if s.isAnimating then stopConfetti s else s

/-- A partial configuration object, as accepted by `updateConfig`: any subset
of the `CONFIG` fields. -/
structure PartialConfig where
  particleCount : Option ℕ := none
  duration : Option ℝ := none
  colors : Option (List String) := none
  shapes : Option (List String) := none
  gravity : Option ℝ := none
  windResistance : Option ℝ := none
  initialVelocityRange : Option Range := none
  angleRange : Option Range := none

/-- `Object.assign(CONFIG, newConfig)`: every field named in the partial
object overwrites the current one; absent fields are untouched. -/
def mergeConfig (c : Config) (p : PartialConfig) : Config where
  particleCount := p.particleCount.getD c.particleCount
  duration := p.duration.getD c.duration
  colors := p.colors.getD c.colors
  shapes := p.shapes.getD c.shapes
  gravity := p.gravity.getD c.gravity
  windResistance := p.windResistance.getD c.windResistance
  initialVelocityRange := p.initialVelocityRange.getD c.initialVelocityRange
  angleRange := p.angleRange.getD c.angleRange

/-- `updateConfig` (lines 240-242): shallow-merge into the shared config. -/
def updateConfig (p : PartialConfig) (s : EngineState) : EngineState :=
  { s with config := mergeConfig s.config p }

/-! ### Helper lemmas -/

theorem update_life (cfg : Config) (p : Particle) :
    (p.update cfg).life = p.life - 0.01 := by
  simp [Particle.update]

theorem iterate_update_life (cfg : Config) (p : Particle) (n : ℕ) :
    ((Particle.update cfg)^[n] p).life = p.life - n * 0.01 := by
  induction n with
  | zero => simp
  | succ n ih =>
      rw [Function.iterate_succ_apply', update_life, ih]
      push_cast
      ring

theorem animateStep_preserves_config_timers (s : EngineState) :
    (animateStep s).1.config = s.config ∧ (animateStep s).1.timers = s.timers := by
  unfold animateStep
  rcases h : s.canvas with _ | cv <;> rcases hb : s.hasCtx with _ | _ <;>
    simp [h, hb] <;> split <;> simp

/-- A concrete engine state freshly initialized against an 800 × 600 surface,
used to instantiate witnesses. -/
noncomputable def testState : EngineState where
  canvas := some ⟨800, 600⟩
  hasCtx := true
  particles := []
  animationId := none
  nextFrameId := 0
  isAnimating := false
  config := CONFIG
  timers := []

/-- A concrete particle at the origin with zero velocity and full life. -/
def p0 : Particle :=
  ⟨0, 0, 4, "", "", 0, 0, 0, 0, 1, 1⟩

/-- A deterministic all-zero random source. -/
def rand0 : Rand := ⟨0, 0, 0, 0, 0, 0, 0⟩

/-! ### C2 -/

/-- C2: one `update` call performs gravity, then drag, then position
integration, then rotation, then decay, in that order: the resulting fields
show gravity added before drag scales the vertical velocity, the dragged
velocity used to integrate position, and `opacity = max 0 life` afterwards. -/
theorem update_order_characterization (cfg : Config) (p : Particle) :
    (p.update cfg).vx = p.vx * cfg.windResistance
  ∧ (p.update cfg).vy = (p.vy + cfg.gravity) * cfg.windResistance
  ∧ (p.update cfg).x = p.x + p.vx * cfg.windResistance
  ∧ (p.update cfg).y = p.y + (p.vy + cfg.gravity) * cfg.windResistance
  ∧ (p.update cfg).rotation = p.rotation + p.rotationSpeed
  ∧ (p.update cfg).life = p.life - 0.01
  ∧ (p.update cfg).opacity = max 0 ((p.update cfg).life) := by
  simp [Particle.update]

/-! ### C4 -/

/-- C4: from any engine state, `stopConfetti` leaves an empty particle
collection, a cleared animating flag and no pending frame request, and a
second call changes nothing further. -/
theorem stop_resets_and_idempotent (s : EngineState) :
    (stopConfetti s).particles = []
  ∧ (stopConfetti s).isAnimating = false
  ∧ (stopConfetti s).animationId = none
  ∧ stopConfetti (stopConfetti s) = stopConfetti s := by
  obtain ⟨c, hx, ps, aid, nf, ia, cfg, tm⟩ := s
  cases aid <;> simp [stopConfetti]

/-! ### C6 -/

/-- C6: a `triggerConfetti` call made while the host reports a reduced-motion
preference returns the engine state untouched (particles, flags, config,
surface and timers all unchanged), whatever the current state is. -/
theorem trigger_reduced_motion_noop (opts : TriggerOptions) (now : ℝ)
    (ρ : ℕ → Rand) (s : EngineState) :
    triggerConfetti true opts now ρ s = s := by
  unfold triggerConfetti
  rcases h : s.canvas with _ | cv <;> rcases hb : s.hasCtx with _ | _ <;>
    simp [h, hb]

/-! ### C10 -/

/-- C10: an option given as the number `0` is falsy, so it is resolved
exactly like an absent option: `x = 0` resolves to the horizontal surface
center, `y = 0` to the fixed offset `40`, `count = 0` to the configured
default count (and `createParticles` then appends that many particles); a
`triggerConfetti` call with all options zero behaves identically to one with
no options. -/
theorem trigger_zero_options_like_absent (reduced : Bool) (now : ℝ)
    (ρ : ℕ → Rand) (s : EngineState) (w x y : ℝ) (cfg : Config)
    (ps : List Particle) :
    jsOrR (some 0) (w / 2) = w / 2
  ∧ jsOrR (some 0) 40 = (40 : ℝ)
  ∧ jsOrN (some 0) cfg.particleCount = cfg.particleCount
  ∧ (createParticles cfg x y (jsOrN (some 0) cfg.particleCount) ρ ps).length
      = ps.length + cfg.particleCount
  ∧ triggerConfetti reduced ⟨some 0, some 0, some 0⟩ now ρ s
      = triggerConfetti reduced ⟨none, none, none⟩ now ρ s := by
  refine ⟨by simp [jsOrR], by simp [jsOrR], by simp [jsOrN], ?_, ?_⟩
  · simp [createParticles, jsOrN]
  · unfold triggerConfetti
    rcases h : s.canvas with _ | cv <;> rcases hb : s.hasCtx with _ | _ <;>
      simp [h, hb, jsOrR, jsOrN]

/-! ### C9 -/

/-- C9: `updateConfig` is a shallow merge: every field named in the partial
object takes the new value, every absent field keeps its old value, and the
particle collection, the animating flag, the surface and the pending frame
request are left untouched (so live particles keep their sampled
attributes). -/
theorem updateConfig_shallow_merge (s : EngineState) (p : PartialConfig) :
    (updateConfig p s).particles = s.particles
  ∧ (updateConfig p s).isAnimating = s.isAnimating
  ∧ (updateConfig p s).canvas = s.canvas
  ∧ (updateConfig p s).animationId = s.animationId
  ∧ (∀ v, p.particleCount = some v →
      (updateConfig p s).config.particleCount = v)
  ∧ (p.particleCount = none →
      (updateConfig p s).config.particleCount = s.config.particleCount)
  ∧ (∀ v, p.duration = some v → (updateConfig p s).config.duration = v)
  ∧ (p.duration = none →
      (updateConfig p s).config.duration = s.config.duration)
  ∧ (∀ v, p.colors = some v → (updateConfig p s).config.colors = v)
  ∧ (p.colors = none → (updateConfig p s).config.colors = s.config.colors)
  ∧ (∀ v, p.shapes = some v → (updateConfig p s).config.shapes = v)
  ∧ (p.shapes = none → (updateConfig p s).config.shapes = s.config.shapes)
  ∧ (∀ v, p.gravity = some v → (updateConfig p s).config.gravity = v)
  ∧ (p.gravity = none → (updateConfig p s).config.gravity = s.config.gravity)
  ∧ (∀ v, p.windResistance = some v →
      (updateConfig p s).config.windResistance = v)
  ∧ (p.windResistance = none →
      (updateConfig p s).config.windResistance = s.config.windResistance)
  ∧ (∀ v, p.initialVelocityRange = some v →
      (updateConfig p s).config.initialVelocityRange = v)
  ∧ (p.initialVelocityRange = none →
      (updateConfig p s).config.initialVelocityRange
        = s.config.initialVelocityRange)
  ∧ (∀ v, p.angleRange = some v → (updateConfig p s).config.angleRange = v)
  ∧ (p.angleRange = none →
      (updateConfig p s).config.angleRange = s.config.angleRange) := by
  refine ⟨rfl, rfl, rfl, rfl,
    ?_, ?_, ?_, ?_, ?_, ?_, ?_, ?_, ?_, ?_, ?_, ?_, ?_, ?_, ?_, ?_⟩ <;>
  first
  | (intro v h; simp [updateConfig, mergeConfig, h])
  | (intro h; simp [updateConfig, mergeConfig, h])

/-- A partial configuration naming only `gravity`. -/
def partialG : PartialConfig := { gravity := some 0 }

/-- Witness for C9: merging `partialG` into the freshly initialized state
sets `gravity` to `0`, keeps `windResistance`, and keeps the particle list. -/
theorem updateConfig_shallow_merge_witness :
    (updateConfig partialG testState).config.gravity = 0
  ∧ (updateConfig partialG testState).config.windResistance
      = testState.config.windResistance
  ∧ (updateConfig partialG testState).particles = testState.particles := by
  obtain ⟨h1, -, -, -, -, -, -, -, -, -, -, -, hg, -, -, hw, -, -, -, -⟩ :=
    updateConfig_shallow_merge testState partialG
  exact ⟨hg 0 rfl, hw rfl, h1⟩

/-! ### C5 -/

/-- C5: after one frame of the animation loop on an initialized engine, the
collection holds exactly the particles that are alive after this frame's
update, the drawn particles are exactly those survivors (so a particle dead
after its update is never drawn), and when the collection ends the frame
empty no further frame is requested and the animating flag drops. -/
theorem animate_frame_invariants (s : EngineState) (cv : Canvas)
    (hc : s.canvas = some cv) (hctx : s.hasCtx = true) :
    (animateStep s).1.particles
      = (s.particles.map (Particle.update s.config)).filter
          (Particle.aliveB cv.height)
  ∧ (∀ q, q ∈ (animateStep s).1.particles ↔
        q ∈ s.particles.map (Particle.update s.config) ∧ q.isAlive cv.height)
  ∧ (animateStep s).2 = (animateStep s).1.particles
  ∧ (∀ q ∈ (animateStep s).2, q.isAlive cv.height)
  ∧ ((animateStep s).1.particles = [] →
        (animateStep s).1.isAnimating = false
      ∧ (animateStep s).1.animationId = s.animationId
      ∧ (animateStep s).1.nextFrameId = s.nextFrameId) := by
  have hmem : ∀ q,
      q ∈ (s.particles.map (Particle.update s.config)).filter
            (Particle.aliveB cv.height) ↔
      q ∈ s.particles.map (Particle.update s.config) ∧ q.isAlive cv.height := by
    intro q
    simp [List.mem_filter, aliveB_eq_true_iff]
  unfold animateStep
  simp only [hc, hctx]
  split
  · next hpos =>
      refine ⟨rfl, hmem, rfl, ?_, ?_⟩
      · intro q hq
        exact ((hmem q).1 hq).2
      · intro hempty
        have hnil : (s.particles.map (Particle.update s.config)).filter
            (Particle.aliveB cv.height) = [] := hempty
        rw [hnil] at hpos
        simp at hpos
  · next hpos =>
      refine ⟨rfl, hmem, rfl, ?_, fun _ => ⟨rfl, rfl, rfl⟩⟩
      intro q hq
      exact ((hmem q).1 hq).2

/-- Witness for C5: one frame stepped from the fresh (particle-free)
initialized state. -/
theorem animate_frame_invariants_witness :
    (animateStep testState).1.particles
      = (testState.particles.map (Particle.update testState.config)).filter
          (Particle.aliveB (Canvas.mk 800 600).height)
  ∧ (∀ q, q ∈ (animateStep testState).1.particles ↔
        q ∈ testState.particles.map (Particle.update testState.config)
      ∧ q.isAlive (Canvas.mk 800 600).height)
  ∧ (animateStep testState).2 = (animateStep testState).1.particles
  ∧ (∀ q ∈ (animateStep testState).2, q.isAlive (Canvas.mk 800 600).height)
  ∧ ((animateStep testState).1.particles = [] →
        (animateStep testState).1.isAnimating = false
      ∧ (animateStep testState).1.animationId = testState.animationId
      ∧ (animateStep testState).1.nextFrameId = testState.nextFrameId) :=
  animate_frame_invariants testState (Canvas.mk 800 600) rfl rfl

/-! ### C8 -/

/-- An engine state that is mid-animation: one live particle, the animating
flag set, and a pending frame request. -/
noncomputable def animState : EngineState :=
  { testState with particles := [p0], isAnimating := true,
                   animationId := some 1, nextFrameId := 1 }

/-- C8: a `triggerConfetti` call that reaches the spawn path appends its own
deferred stop, due the configured duration after the call; and when a
deferred stop fires it performs the full stop exactly when the engine is
still animating (emptying the collection — whoever spawned its particles —
and clearing the flag), and does nothing otherwise. -/
theorem trigger_schedules_deferred_stop (opts : TriggerOptions) (now : ℝ)
    (ρ : ℕ → Rand) (s t : EngineState) (cv : Canvas)
    (hc : s.canvas = some cv) (hctx : s.hasCtx = true) :
    (triggerConfetti false opts now ρ s).timers
      = s.timers ++ [now + s.config.duration]
  ∧ (t.isAnimating = true → fireAutoStop t = stopConfetti t)
  ∧ (t.isAnimating = false → fireAutoStop t = t)
  ∧ (t.isAnimating = true →
        (fireAutoStop t).particles = [] ∧ (fireAutoStop t).isAnimating = false) := by
  refine ⟨?_, ?_, ?_, ?_⟩
  · unfold triggerConfetti
    simp only [hc, hctx, Bool.false_eq_true, if_false]
    split
    · simp
    · obtain ⟨hcf, htm⟩ := animateStep_preserves_config_timers
        { s with particles := createParticles s.config
                   (jsOrR opts.x (cv.width / 2)) (jsOrR opts.y 40)
                   (jsOrN opts.count s.config.particleCount) ρ s.particles,
                 isAnimating := true }
      simp_all
  · intro h
    simp [fireAutoStop, h]
  · intro h
    simp [fireAutoStop, h]
  · intro h
    simp [fireAutoStop, h, stopConfetti]

/-- Witness for C8: a trigger from the fresh initialized state schedules the
stop at `0 + 4000`, and a deferred stop firing on a mid-animation state
performs the full stop. -/
theorem trigger_schedules_deferred_stop_witness :
    (triggerConfetti false ⟨none, none, none⟩ 0 (fun _ => rand0)
        testState).timers = testState.timers ++ [0 + testState.config.duration]
  ∧ fireAutoStop animState = stopConfetti animState
  ∧ (fireAutoStop animState).particles = [] := by
  obtain ⟨h1, h2, -, h4⟩ :=
    trigger_schedules_deferred_stop ⟨none, none, none⟩ 0 (fun _ => rand0)
      testState animState (Canvas.mk 800 600) rfl rfl
  exact ⟨h1, h2 rfl, (h4 rfl).1⟩

/-! ### C1 -/

theorem mkParticle_vy (cfg : Config) (x y : ℝ) (ρ : Rand) :
    (mkParticle cfg x y ρ).vy
      = Real.sin (sampleAngle cfg ρ.rAngle) * sampleVelocity cfg ρ.rVel := by
  simp [mkParticle]

/-- C1 counterexample: at the valid random draw `0` for both angle and speed,
the default configuration yields `angle = -π/4` and `speed = -15`, whose
product with `sin` is `15·√2/2 > 0` — the fresh particle's vertical velocity
is not `≤ 0`, so it fires downward, not upward. -/
theorem mkParticle_vy_upward_cex :
    (0 : ℝ) ∈ Set.Ico (0 : ℝ) 1
  ∧ ¬ (mkParticle CONFIG 0 0 rand0).vy ≤ 0 := by
  refine ⟨⟨le_refl 0, by norm_num⟩, ?_⟩
  rw [mkParticle_vy]
  have ha : sampleAngle CONFIG rand0.rAngle = -(Real.pi / 4) := by
    simp [sampleAngle, CONFIG, rand0]
  have hv : sampleVelocity CONFIG rand0.rVel = -15 := by
    simp [sampleVelocity, CONFIG, rand0]
  rw [ha, hv, Real.sin_neg, Real.sin_pi_div_four]
  simp only [not_le]
  have h2 : 0 < Real.sqrt 2 := Real.sqrt_pos.mpr (by norm_num)
  nlinarith

/-- C1 (amended): for every launch-angle and launch-speed draw in `[0, 1)`,
the default configuration's angle lies in `(-3π/4, -π/4] ⊂ (-π, 0)` where
`sin` is negative, and the speed is negative, so the spawned particle's
initial vertical velocity is strictly positive — downward in the
y-increases-downward convention: every fresh particle fires
downward-and-outward. -/
theorem mkParticle_vy_downward (x y : ℝ) (ρ : Rand)
    (ha0 : 0 ≤ ρ.rAngle) (ha1 : ρ.rAngle < 1)
    (hv0 : 0 ≤ ρ.rVel) (hv1 : ρ.rVel < 1) :
    0 < (mkParticle CONFIG x y ρ).vy := by
  rw [mkParticle_vy]
  have hpi := Real.pi_pos
  have hangle : sampleAngle CONFIG ρ.rAngle
      = -(ρ.rAngle * Real.pi / 2) - Real.pi / 4 := by
    simp [sampleAngle, CONFIG]
    ring
  have hs : Real.sin (sampleAngle CONFIG ρ.rAngle) < 0 := by
    apply Real.sin_neg_of_neg_of_neg_pi_lt
    · rw [hangle]
      have := mul_nonneg ha0 hpi.le
      linarith
    · rw [hangle]
      have := mul_lt_mul_of_pos_right ha1 hpi
      linarith
  have hvel : sampleVelocity CONFIG ρ.rVel < 0 := by
    have heq : sampleVelocity CONFIG ρ.rVel = ρ.rVel * 10 - 15 := by
      simp [sampleVelocity, CONFIG]
      ring
    rw [heq]
    linarith
  exact mul_pos_of_neg_of_neg hs hvel

/-- Witness for the amended C1 at the all-zero draw. -/
theorem mkParticle_vy_downward_witness :
    (0 : ℝ) ≤ rand0.rAngle ∧ rand0.rAngle < 1
  ∧ (0 : ℝ) ≤ rand0.rVel ∧ rand0.rVel < 1
  ∧ 0 < (mkParticle CONFIG 0 0 rand0).vy := by
  refine ⟨le_refl 0, by norm_num [rand0], le_refl 0, by norm_num [rand0], ?_⟩
  exact mkParticle_vy_downward 0 0 rand0 (le_refl 0) (by norm_num [rand0])
    (le_refl 0) (by norm_num [rand0])

/-! ### C3 -/

theorem iterate_update_vy_y_bound (n : ℕ) (p : Particle) (hv : p.vy ≤ 24.5) :
    ((Particle.update CONFIG)^[n] p).vy ≤ 24.5
  ∧ ((Particle.update CONFIG)^[n] p).y ≤ p.y + 24.5 * n := by
  induction n with
  | zero => simpa using hv
  | succ n ih =>
      obtain ⟨ihv, ihy⟩ := ih
      rw [Function.iterate_succ_apply']
      set q := (Particle.update CONFIG)^[n] p with hq
      have hvy : (q.update CONFIG).vy = (q.vy + 0.5) * 0.98 := by
        simp [Particle.update, CONFIG]
      have hyy : (q.update CONFIG).y = q.y + (q.vy + 0.5) * 0.98 := by
        simp [Particle.update, CONFIG]
      constructor
      · rw [hvy]
        nlinarith
      · rw [hyy]
        push_cast
        nlinarith

/-- C3 counterexample: a particle spawned with `life = 1` at the origin of a
huge (height `1000000`) surface is still alive after 99 update calls, never
crosses the vertical culling threshold through step 100, yet is already dead
on the 100th call (`life` reaches exactly `0`, failing `life > 0`) — not on
the 101st as claimed. -/
theorem particle_lifetime_cex :
    Particle.isAlive 1000000 ((Particle.update CONFIG)^[99] p0)
  ∧ ((Particle.update CONFIG)^[100] p0).y < 1000000 + 50
  ∧ ¬ Particle.isAlive 1000000 ((Particle.update CONFIG)^[100] p0) := by
  have h99 := iterate_update_life CONFIG p0 99
  have h100 := iterate_update_life CONFIG p0 100
  have hb99 := iterate_update_vy_y_bound 99 p0 (by norm_num [p0])
  have hb100 := iterate_update_vy_y_bound 100 p0 (by norm_num [p0])
  have hp0y : p0.y = 0 := rfl
  have hp0life : p0.life = 1 := rfl
  refine ⟨⟨?_, ?_⟩, ?_, ?_⟩
  · rw [h99, hp0life]
    norm_num
  · have hy := hb99.2
    rw [hp0y] at hy
    push_cast at hy
    linarith
  · have hy := hb100.2
    rw [hp0y] at hy
    push_cast at hy
    linarith
  · intro hal
    have hlife := hal.1
    rw [h100, hp0life] at hlife
    norm_num at hlife

/-- C3 (amended): `life` decreases by exactly the fixed decrement `0.01` on
each update call; starting from `life = 1`, the life condition holds after
`n` calls iff `n ≤ 99`, so the particle is culled on the 100th update call
(regardless of position — the vertical threshold can only cull it earlier),
and from the 100th call on it is dead. -/
theorem particle_lifetime_amended (cfg : Config) (p : Particle)
    (hp : p.life = 1) (n : ℕ) (H : ℝ) :
    ((Particle.update cfg)^[n + 1] p).life
      = ((Particle.update cfg)^[n] p).life - 0.01
  ∧ (((Particle.update cfg)^[n] p).life > 0 ↔ n < 100)
  ∧ (100 ≤ n → ¬ ((Particle.update cfg)^[n] p).isAlive H) := by
  have hn := iterate_update_life cfg p n
  refine ⟨?_, ?_, ?_⟩
  · rw [Function.iterate_succ_apply', update_life]
  · rw [hn, hp]
    constructor
    · intro h
      by_contra hlt
      push_neg at hlt
      have hc : (100 : ℝ) ≤ (n : ℝ) := by exact_mod_cast hlt
      nlinarith
    · intro h
      have hc : (n : ℝ) < 100 := by exact_mod_cast h
      nlinarith
  · intro h100 hal
    have hlife := hal.1
    rw [hn, hp] at hlife
    have hc : (100 : ℝ) ≤ (n : ℝ) := by exact_mod_cast h100
    nlinarith

/-- Witness for the amended C3 at `n = 0` on the concrete particle `p0`. -/
theorem particle_lifetime_amended_witness :
    p0.life = 1
  ∧ ((Particle.update CONFIG)^[0 + 1] p0).life
      = ((Particle.update CONFIG)^[0] p0).life - 0.01
  ∧ (((Particle.update CONFIG)^[0] p0).life > 0 ↔ 0 < 100)
  ∧ (100 ≤ 0 → ¬ ((Particle.update CONFIG)^[0] p0).isAlive 600) := by
  have h := particle_lifetime_amended CONFIG p0 rfl 0 600
  exact ⟨rfl, h.1, h.2.1, h.2.2⟩

/-! ### C7 -/

/-- The engine state before any successful initialization. -/
noncomputable def uninitState : EngineState where
  canvas := none
  hasCtx := false
  particles := []
  animationId := none
  nextFrameId := 0
  isAnimating := false
  config := CONFIG
  timers := []

/-- C7 counterexample: on a never-initialized engine, `updateConfig` is not a
no-op — it still merges the partial object into the shared configuration
(here changing `gravity` from `0.5` to `0`). -/
theorem uninit_updateConfig_cex :
    uninitState.canvas = none
  ∧ (updateConfig partialG uninitState).config.gravity
      ≠ uninitState.config.gravity := by
  refine ⟨rfl, ?_⟩
  simp only [updateConfig, mergeConfig, partialG, uninitState, CONFIG]
  norm_num

/-- C7 (amended): when the drawing surface is absent, `initConfetti` and
`triggerConfetti` are silent no-ops leaving the engine state unchanged, and
no operation fails; but `stopConfetti` still resets the particle collection,
the animating flag and the pending frame request (leaving surface and config
alone), and `updateConfig` still merges into the shared config (touching
nothing else). -/
theorem uninitialized_operations (s : EngineState) (hc : s.canvas = none)
    (vw vh : ℝ) (reduced : Bool) (opts : TriggerOptions) (now : ℝ)
    (ρ : ℕ → Rand) (p : PartialConfig) :
    initConfetti none vw vh s = s
  ∧ triggerConfetti reduced opts now ρ s = s
  ∧ (stopConfetti s).particles = []
  ∧ (stopConfetti s).isAnimating = false
  ∧ (stopConfetti s).animationId = none
  ∧ (stopConfetti s).canvas = s.canvas
  ∧ (stopConfetti s).config = s.config
  ∧ (updateConfig p s).config = mergeConfig s.config p
  ∧ (updateConfig p s).particles = s.particles
  ∧ (updateConfig p s).canvas = s.canvas := by
  obtain ⟨c, hx, ps, aid, nf, ia, cfg, tm⟩ := s
  replace hc : c = none := hc
  subst hc
  cases aid <;>
    exact ⟨rfl, by simp [triggerConfetti], by simp [stopConfetti],
      by simp [stopConfetti], by simp [stopConfetti], by simp [stopConfetti],
      by simp [stopConfetti], rfl, rfl, rfl⟩

/-- Witness for the amended C7 on the concrete uninitialized state. -/
theorem uninitialized_operations_witness :
    initConfetti none 800 600 uninitState = uninitState
  ∧ triggerConfetti false ⟨none, none, none⟩ 0 (fun _ => rand0) uninitState
      = uninitState
  ∧ (stopConfetti uninitState).particles = []
  ∧ (updateConfig partialG uninitState).config
      = mergeConfig uninitState.config partialG := by
  obtain ⟨h1, h2, h3, -, -, -, -, h8, -, -⟩ :=
    uninitialized_operations uninitState rfl 800 600 false ⟨none, none, none⟩
      0 (fun _ => rand0) partialG
  exact ⟨h1, h2, h3, h8⟩

end Confetti
